import Mathlib

/-!
Shallow embedding of `wagtailbakery/admin_views.py` (wagtail-bakery).

The module under verification is a thin Django admin view that

* resolves an S3 bucket name from two environment variables
  (`get_bucket_name`),
* parses the optional `BAKERY_POST_PUBLISH_COMMAND` setting into a
  `(command, title)` pair (`_get_post_publish_command`),
* runs the `build` / `publish` / post-publish management commands and
  reports progress either as flash messages plus a redirect, or as a
  stream of server-sent events (`_run_bakery_stream`, `bakery_admin_view`).

The external management commands invoked through Django's `call_command`
are modelled by an oracle (`Cmds`) giving, for each of the three commands
a request may invoke, either success or the raised exception's message.
The embedding records which commands are invoked so that claims of the
form "publish is never invoked" can be stated.
-/

namespace WagtailBakery

/-- A Python value, as far as the `BAKERY_POST_PUBLISH_COMMAND` setting is
concerned: `None`, a string, a dict with string keys and values (the
documented descriptor form with a command name and a display label), or
any other object (`pyOther`). -/
inductive PyVal where
  | pyNone : PyVal
  | pyStr : String → PyVal
  | pyDict : List (String × String) → PyVal
  | pyOther : PyVal
deriving DecidableEq, Repr

/-- The process environment, as an association list (first binding wins,
like `os.environ`). -/
abbrev Env := List (String × String)

/-- `os.environ.get(key, dflt)`. -/
def envGet (env : Env) (key dflt : String) : String :=
  match env.lookup key with
  | some v => v
  | none => dflt

/-- `get_bucket_name` from `admin_views.py`: the `BAKERY_AWS_BUCKET_NAME`
environment variable, falling back to `AWS_BUCKET_NAME`, then `""`. -/
def get_bucket_name (env : Env) : String :=
  envGet env "BAKERY_AWS_BUCKET_NAME" (envGet env "AWS_BUCKET_NAME" "")

/-- `_get_post_publish_command` from `admin_views.py`.  Returns the pair
`(command, title)`; `none` stands for Python `None`.  A dict uses
`val.get("command")` and `val.get("title", "Post-publish")`; a string is
the command itself with the default title; `None` and any other value
give `(None, None)`. -/
def _get_post_publish_command (val : PyVal) : Option String × Option String :=
  match val with
  | .pyNone => (none, none)
  | .pyDict es => (es.lookup "command", some ((es.lookup "title").getD "Post-publish"))
  | .pyStr s => (some s, some "Post-publish")
  | .pyOther => (none, none)

/-- Python truthiness of the parsed command: `None` and the empty string
are falsy, any other string is truthy (`if post_cmd:`). -/
def pyTruthy : Option String → Bool
  | none => false
  | some s => !(s == "")

/-- A JSON value as emitted by the progress stream: `null`, a bool or a
string. -/
inductive JVal where
  | jnull : JVal
  | jbool : Bool → JVal
  | jstr : String → JVal
deriving DecidableEq, Repr

/-- A progress record: the Python dict passed to `_sse_event`, with its
key order preserved. -/
abbrev Rec := List (String × JVal)

/-- JSON string escaping for the characters that can occur here. -/
def escChar (c : Char) : String :=
  if c = '"' then "\\\"" else if c = '\\' then "\\\\" else if c = '\n' then "\\n"
  else String.singleton c

/-- Escape a string for inclusion in a JSON literal. -/
def escape (s : String) : String :=
  String.join (s.toList.map escChar)

/-- `json.dumps` on one JSON value. -/
def jsonOfJVal : JVal → String
  | .jnull => "null"
  | .jbool true => "true"
  | .jbool false => "false"
  | .jstr s => "\"" ++ escape s ++ "\""

/-- `json.dumps` on a progress record (a flat dict). -/
def dumps (r : Rec) : String :=
  "\x7b" ++ String.intercalate ", " (r.map (fun kv => "\"" ++ escape kv.1 ++ "\": " ++ jsonOfJVal kv.2)) ++ "\x7d"

/-- `_sse_event` from `admin_views.py`: format one record as a
server-sent event. -/
def _sse_event (data : Rec) : String :=
  "data: " ++ dumps data ++ "\n\n"

/-- The records `{"step": step, "status": status, "label": label}`. -/
def stepRec (step status : String) (label : JVal) : Rec :=
  [("step", .jstr step), ("status", .jstr status), ("label", label)]

/-- The error record for a failed post-publish step, which also carries
the exception message. -/
def stepErrRec (step : String) (label : JVal) (msg : String) : Rec :=
  [("step", .jstr step), ("status", .jstr "error"), ("label", label), ("message", .jstr msg)]

/-- The terminal success record `{"step": "done", "success": True}`. -/
def doneRec : Rec :=
  [("step", .jstr "done"), ("success", .jbool true)]

/-- The terminal failure record, which also carries a message. -/
def doneFailRec (msg : String) : Rec :=
  [("step", .jstr "done"), ("success", .jbool false), ("message", .jstr msg)]

/-- The record yielded when the bucket is not configured:
`{"step": "error", "message": "S3 bucket not configured"}`. -/
def bucketErrRec : Rec :=
  [("step", .jstr "error"), ("message", .jstr "S3 bucket not configured")]

/-- The label value put in the post-publish records: the parsed title, or
JSON `null` when the title is Python `None`. -/
def jOfTitle : Option String → JVal
  | some t => .jstr t
  | none => .jnull

/-- The Django settings consulted by the view. -/
structure Settings where
  BUILD_DIR : String
  BAKERY_SKIP_STATIC : Bool
  BAKERY_POST_PUBLISH_COMMAND : PyVal
deriving Repr

/-- Outcome oracle for the three management commands a request may invoke
through `call_command`: success, or the raised exception's message.
The command's arguments (`skip_static`, `aws_bucket_name`, the captured
stdout and stderr) only parametrise the external command and are not
modelled beyond the outcome. -/
structure Cmds where
  build : Except String Unit
  publish : Except String Unit
  post : Except String Unit
deriving Repr

/-- The post-publish part of `_run_bakery_stream` (lines 86-98) together
with the final `yield done/true` (line 100): records yielded, and the
commands invoked. -/
def postPhase (st : Settings) (cmds : Cmds) : List Rec × List String :=
  let pc := _get_post_publish_command st.BAKERY_POST_PUBLISH_COMMAND
  if pyTruthy pc.1 then
    let lbl := jOfTitle pc.2
    match cmds.post with
    | .ok _ =>
        ([stepRec "post_publish" "running" lbl, stepRec "post_publish" "complete" lbl, doneRec],
         [pc.1.getD ""])
    | .error e =>
        ([stepRec "post_publish" "running" lbl, stepErrRec "post_publish" lbl e,
          doneFailRec ("Post-publish failed: " ++ e)],
         [pc.1.getD ""])
  else
    ([doneRec], [])

/-- The publish part of `_run_bakery_stream` (lines 75-98): the bucket
check, the `publish` command, then the post-publish phase.  An exception
from `publish` is caught by the generator's outer `except`, which yields
the terminal failure record. -/
def publishPhase (st : Settings) (cmds : Cmds) (bucket_name : String) : List Rec × List String :=
  if bucket_name = "" then
    ([bucketErrRec], [])
  else
    match cmds.publish with
    | .error e =>
        ([stepRec "sync" "running" (.jstr "Sync to S3"), doneFailRec e], ["publish"])
    | .ok _ =>
        let rest := postPhase st cmds
        (stepRec "sync" "running" (.jstr "Sync to S3") ::
           stepRec "sync" "complete" (.jstr "Sync to S3") :: rest.1,
         "publish" :: rest.2)

/-- `_run_bakery_stream` from `admin_views.py`: the list of records the
generator yields (in order, exceptions included), and the commands it
invokes.  Records yielded before an exception are still part of the
stream; the outer `except` turns an exception from `build` or `publish`
into a terminal failure record. -/
def _run_bakery_stream (st : Settings) (cmds : Cmds) (action : String) (bucket_name : String) :
    List Rec × List String :=
  if action = "build" ∨ action = "build_publish" then
    match cmds.build with
    | .error e =>
        ([stepRec "build" "running" (.jstr "Build"), doneFailRec e], ["build"])
    | .ok _ =>
        if action = "build_publish" then
          let rest := publishPhase st cmds bucket_name
          (stepRec "build" "running" (.jstr "Build") ::
             stepRec "build" "complete" (.jstr "Build") :: rest.1,
           "build" :: rest.2)
        else
          ([stepRec "build" "running" (.jstr "Build"),
            stepRec "build" "complete" (.jstr "Build"), doneRec], ["build"])
  else
    ([doneRec], [])

/-- Django flash-message levels used by the view. -/
inductive Level where
  | success : Level
  | warning : Level
  | error : Level
deriving DecidableEq, Repr

/-- The flash message emitted when `build_publish` is requested without a
configured bucket (lines 155-159). -/
def bucket_not_configured_msg : String :=
  "S3 bucket not configured. Set BAKERY_AWS_BUCKET_NAME or AWS_BUCKET_NAME in the environment."

/-- The warning emitted when the post-publish command fails in the
redirect path.  The view passes the exception as the third positional
argument of `messages.warning`, which Django takes as `extra_tags`, so
the `%s` placeholder is left unformatted in the message text. -/
def purge_failed_msg : String :=
  "Build and publish succeeded, but purge failed: %s"

/-- The non-streaming (flash message) part of the view's POST branch
(lines 138-206), run for a validated action: the flash messages set (in
order) and the commands invoked.  The outer `try` turns an exception
from `build` or `publish` into a single error message; an exception from
the post-publish command is caught by the inner `except` and becomes a
warning. -/
def flashRun (st : Settings) (cmds : Cmds) (action : String) (bucket_name : String) :
    List (Level × String) × List String :=
  if action = "build" ∨ action = "build_publish" then
    match cmds.build with
    | .error e => ([(.error, "Build failed: " ++ e)], ["build"])
    | .ok _ =>
      let m1 : List (Level × String) := [(.success, "Build completed successfully.")]
      if action = "build_publish" then
        if bucket_name = "" then
          (m1 ++ [(.error, bucket_not_configured_msg)], ["build"])
        else
          match cmds.publish with
          | .error e => (m1 ++ [(.error, "Build failed: " ++ e)], ["build", "publish"])
          | .ok _ =>
            let m2 := m1 ++ [(.success, "Build and publish to S3 completed successfully.")]
            let pc := _get_post_publish_command st.BAKERY_POST_PUBLISH_COMMAND
            if pyTruthy pc.1 then
              match cmds.post with
              | .ok _ =>
                  (m2 ++ [(.success, "Build, publish to S3, and frontend cache purge completed.")],
                   ["build", "publish", pc.1.getD ""])
              | .error _ =>
                  (m2 ++ [(.warning, purge_failed_msg)], ["build", "publish", pc.1.getD ""])
            else (m2, ["build", "publish"])
      else (m1, ["build"])
  else ([], [])

/-- Does `xs` start with `needle`? -/
def charsLeadWith : List Char → List Char → Bool
  | [], _ => true
  | _ :: _, [] => false
  | a :: as, b :: bs => a == b && charsLeadWith as bs

/-- Does `hay` contain `needle` as a contiguous substring?  Models the
Python expression `needle in hay` on strings. -/
def charsContain (needle : List Char) : List Char → Bool
  | [] => charsLeadWith needle []
  | c :: t => charsLeadWith needle (c :: t) || charsContain needle t

/-- String containment, `needle in hay` in Python. -/
def strContains (hay needle : String) : Bool :=
  charsContain needle.toList hay.toList

/-- The parts of the HTTP request the view reads: the method, the
`action` POST parameter (`request.POST.get("action")`), and the `Accept`
header (`request.headers.get("Accept", "")`). -/
structure Request where
  method : String
  action : Option String
  accept : String
deriving DecidableEq, Repr

/-- The context passed to the `wagtailbakery/admin.html` template on GET
(lines 212-218). -/
structure TemplateContext where
  bucket_name : String
  bucket_configured : Bool
  build_dir : String
  post_publish_command : Option String
  post_publish_command_title : String
deriving DecidableEq, Repr

/-- The response the view returns: a redirect to a URL, a streaming
response whose body is the list of SSE chunks, or the rendered admin
template. -/
inductive Response where
  | redirect : String → Response
  | streaming : List String → Response
  | rendered : TemplateContext → Response
deriving DecidableEq, Repr

/-- The observable result of one request: the flash messages added, the
response returned, and the commands invoked through `call_command`. -/
structure ViewResult where
  msgs : List (Level × String)
  response : Response
  invoked : List String
deriving DecidableEq, Repr

/-- `reverse("wagtailbakery_admin")`: the URL of the admin view, as
registered in `wagtail_hooks.py` under the admin URL prefix. -/
def wagtailbakery_admin_url : String := "/admin/bakery/"

/-- Python `x or dflt` for the template title: the parsed title unless
it is `None` or empty. -/
def orDflt (v : Option String) (dflt : String) : String :=
  match v with
  | some t => if t == "" then dflt else t
  | none => dflt

/-- `bakery_admin_view` from `admin_views.py`: validates the action,
then either streams `_run_bakery_stream` as SSE chunks (when the
`Accept` header contains `text/event-stream`) or runs the flash-message
path and redirects; GET renders the admin template. -/
def bakery_admin_view (env : Env) (st : Settings) (cmds : Cmds) (req : Request) : ViewResult :=
  let bucket_name := get_bucket_name env
  if req.method = "POST" then
    if req.action ≠ some "build" ∧ req.action ≠ some "build_publish" then
      { msgs := [(.error, "Invalid action.")]
        response := .redirect wagtailbakery_admin_url
        invoked := [] }
    else
      let act := req.action.getD ""
      if strContains req.accept "text/event-stream" then
        let run := _run_bakery_stream st cmds act bucket_name
        { msgs := []
          response := .streaming (run.1.map _sse_event)
          invoked := run.2 }
      else
        let run := flashRun st cmds act bucket_name
        { msgs := run.1
          response := .redirect wagtailbakery_admin_url
          invoked := run.2 }
  else
    let pc := _get_post_publish_command st.BAKERY_POST_PUBLISH_COMMAND
    { msgs := []
      response := .rendered
        { bucket_name := if bucket_name = "" then "(not set)" else bucket_name
          bucket_configured := !(bucket_name == "")
          build_dir := st.BUILD_DIR
          post_publish_command := pc.1
          post_publish_command_title := orDflt pc.2 "Post-publish" }
      invoked := [] }

/-- The keys of a record, in order. -/
def recKeys (r : Rec) : List String := r.map Prod.fst

/-- Does the record carry `"status": "error"`? -/
def isErrorStatus (r : Rec) : Bool :=
  r.lookup "status" == some (.jstr "error")

/-- The progress-record shape claimed by the spec: keys
`step, status, label`, with a `message` key only on error status. -/
def isProgressRec (r : Rec) : Bool :=
  recKeys r == ["step", "status", "label"] ||
    (recKeys r == ["step", "status", "label", "message"] && isErrorStatus r)

/-- The terminal-record shape claimed by the spec:
`step = "done"`, a boolean `success`, and an optional `message`. -/
def isTerminalRec (r : Rec) : Bool :=
  (recKeys r == ["step", "success"] || recKeys r == ["step", "success", "message"]) &&
    r.lookup "step" == some (.jstr "done") &&
    (match r.lookup "success" with
     | some (.jbool _) => true
     | _ => false)

/-- The stream shape claimed by the spec: every record but the last is a
progress record (and not a `done` record), and the stream ends with
exactly one terminal record. -/
def streamWellFormed (rs : List Rec) : Bool :=
  rs.dropLast.all (fun r => isProgressRec r && !(r.lookup "step" == some (.jstr "done"))) &&
    (match rs.getLast? with
     | some r => isTerminalRec r
     | none => false)

/-! Concrete fixtures used by witnesses and counterexamples. -/

/-- Settings with a bare-string post-publish command. -/
def st0 : Settings :=
  { BUILD_DIR := "/srv/build", BAKERY_SKIP_STATIC := false,
    BAKERY_POST_PUBLISH_COMMAND := .pyStr "purge" }

/-- Settings whose post-publish setting is some unrelated object. -/
def stOther : Settings :=
  { BUILD_DIR := "/srv/build", BAKERY_SKIP_STATIC := false,
    BAKERY_POST_PUBLISH_COMMAND := .pyOther }

/-- All three commands succeed. -/
def cmdsOk : Cmds := { build := .ok (), publish := .ok (), post := .ok () }

/-- Build and publish succeed, the post-publish command raises. -/
def cmdsPostFail : Cmds := { build := .ok (), publish := .ok (), post := .error "boom" }

/-- The build command raises. -/
def cmdsBuildFail : Cmds := { build := .error "no pages", publish := .ok (), post := .ok () }

/-- An environment with the primary bucket variable set. -/
def envB : Env := [("BAKERY_AWS_BUCKET_NAME", "bucket")]

/-! The claims. -/

/-- C5: `get_bucket_name` returns `BAKERY_AWS_BUCKET_NAME` when set
(taking precedence over `AWS_BUCKET_NAME`), otherwise `AWS_BUCKET_NAME`
when set, otherwise the empty string. -/
theorem C5_bucket_resolution_order (env : Env) :
    get_bucket_name env =
      (match env.lookup "BAKERY_AWS_BUCKET_NAME" with
       | some v => v
       | none =>
         match env.lookup "AWS_BUCKET_NAME" with
         | some w => w
         | none => "") := by
  unfold get_bucket_name envGet
  cases env.lookup "BAKERY_AWS_BUCKET_NAME" <;>
    cases env.lookup "AWS_BUCKET_NAME" <;> rfl

/-- C6: `_get_post_publish_command` maps the three documented forms as
specified: a descriptor dict gives `(command, title)` with the title
defaulting to `"Post-publish"` when absent, a bare string gives the
string with the default title, and `None` gives `(None, None)`. -/
theorem C6_post_publish_command_forms (c t s : String) :
    _get_post_publish_command (.pyDict [("command", c), ("title", t)]) = (some c, some t) ∧
    _get_post_publish_command (.pyDict [("command", c)]) = (some c, some "Post-publish") ∧
    _get_post_publish_command (.pyStr s) = (some s, some "Post-publish") ∧
    _get_post_publish_command .pyNone = (none, none) :=
  ⟨rfl, rfl, rfl, rfl⟩

/-- C9: a POST whose action is neither `"build"` nor `"build_publish"`
(including an absent action) gets the `"Invalid action."` error flash and
a redirect, and no command is invoked. -/
theorem C9_invalid_action (env : Env) (st : Settings) (cmds : Cmds) (a : Option String)
    (acc : String) (h1 : a ≠ some "build") (h2 : a ≠ some "build_publish") :
    bakery_admin_view env st cmds { method := "POST", action := a, accept := acc } =
      { msgs := [(.error, "Invalid action.")]
        response := .redirect wagtailbakery_admin_url
        invoked := [] } := by
  simp [bakery_admin_view, h1, h2]

/-- Witness for C9 at the absent action. -/
theorem C9_invalid_action_witness :
    ((none : Option String) ≠ some "build") ∧
    bakery_admin_view envB st0 cmdsOk { method := "POST", action := none, accept := "" } =
      { msgs := [(.error, "Invalid action.")]
        response := .redirect wagtailbakery_admin_url
        invoked := [] } :=
  ⟨by decide, C9_invalid_action envB st0 cmdsOk none "" (by decide) (by decide)⟩

/-- C3: when the build command raises, the publish command is never
invoked, in both the flash-message path and the streaming path; the
failure is reported and the sequence stops there. -/
theorem C3_build_failure_stops_sequence (st : Settings) (cmds : Cmds) (b e : String)
    (h : cmds.build = .error e) :
    flashRun st cmds "build_publish" b = ([(.error, "Build failed: " ++ e)], ["build"]) ∧
    _run_bakery_stream st cmds "build_publish" b =
      ([stepRec "build" "running" (.jstr "Build"), doneFailRec e], ["build"]) ∧
    "publish" ∉ (flashRun st cmds "build_publish" b).2 ∧
    "publish" ∉ (_run_bakery_stream st cmds "build_publish" b).2 := by
  refine ⟨?_, ?_, ?_, ?_⟩ <;> simp [flashRun, _run_bakery_stream, h]

/-- Witness for C3 at a concrete failing build. -/
theorem C3_build_failure_stops_sequence_witness :
    flashRun st0 cmdsBuildFail "build_publish" "bucket" =
      ([(.error, "Build failed: no pages")], ["build"]) ∧
    _run_bakery_stream st0 cmdsBuildFail "build_publish" "bucket" =
      ([stepRec "build" "running" (.jstr "Build"), doneFailRec "no pages"], ["build"]) ∧
    "publish" ∉ (flashRun st0 cmdsBuildFail "build_publish" "bucket").2 ∧
    "publish" ∉ (_run_bakery_stream st0 cmdsBuildFail "build_publish" "bucket").2 :=
  C3_build_failure_stops_sequence st0 cmdsBuildFail "bucket" "no pages" rfl

/-- C1: when `build_publish` runs with build and publish succeeding and
the configured post-publish command raising, the flash path still emits
both success messages plus a single distinct warning and no error flash,
and the streaming path reports build and sync complete, carries an error
status only on the `post_publish` step, and ends with a terminal record
whose message blames the post-publish step. -/
theorem C1_post_publish_failure_isolated (st : Settings) (cmds : Cmds) (b e c t : String)
    (hb : cmds.build = .ok ()) (hp : cmds.publish = .ok ()) (hx : cmds.post = .error e)
    (hbn : b ≠ "")
    (hpc : _get_post_publish_command st.BAKERY_POST_PUBLISH_COMMAND = (some c, some t))
    (hc : c ≠ "") :
    flashRun st cmds "build_publish" b =
      ([(.success, "Build completed successfully."),
        (.success, "Build and publish to S3 completed successfully."),
        (.warning, purge_failed_msg)], ["build", "publish", c]) ∧
    (∀ m ∈ (flashRun st cmds "build_publish" b).1, m.1 ≠ Level.error) ∧
    _run_bakery_stream st cmds "build_publish" b =
      ([stepRec "build" "running" (.jstr "Build"),
        stepRec "build" "complete" (.jstr "Build"),
        stepRec "sync" "running" (.jstr "Sync to S3"),
        stepRec "sync" "complete" (.jstr "Sync to S3"),
        stepRec "post_publish" "running" (.jstr t),
        stepErrRec "post_publish" (.jstr t) e,
        doneFailRec ("Post-publish failed: " ++ e)], ["build", "publish", c]) ∧
    (∀ r ∈ (_run_bakery_stream st cmds "build_publish" b).1,
       isErrorStatus r = true → r.lookup "step" = some (.jstr "post_publish")) := by
  have hfl : flashRun st cmds "build_publish" b =
      ([(.success, "Build completed successfully."),
        (.success, "Build and publish to S3 completed successfully."),
        (.warning, purge_failed_msg)], ["build", "publish", c]) := by
    simp [flashRun, hb, hp, hx, hbn, hpc, pyTruthy, hc]
  have hst : _run_bakery_stream st cmds "build_publish" b =
      ([stepRec "build" "running" (.jstr "Build"),
        stepRec "build" "complete" (.jstr "Build"),
        stepRec "sync" "running" (.jstr "Sync to S3"),
        stepRec "sync" "complete" (.jstr "Sync to S3"),
        stepRec "post_publish" "running" (.jstr t),
        stepErrRec "post_publish" (.jstr t) e,
        doneFailRec ("Post-publish failed: " ++ e)], ["build", "publish", c]) := by
    simp [_run_bakery_stream, publishPhase, postPhase, hb, hp, hx, hbn, hpc, pyTruthy, hc,
      jOfTitle]
  refine ⟨hfl, ?_, hst, ?_⟩
  · rw [hfl]
    simp [purge_failed_msg]
  · rw [hst]
    simp [isErrorStatus, stepRec, stepErrRec, doneFailRec, List.lookup]

/-- Witness for C1 at a concrete configuration. -/
theorem C1_post_publish_failure_isolated_witness :
    flashRun st0 cmdsPostFail "build_publish" "bucket" =
      ([(.success, "Build completed successfully."),
        (.success, "Build and publish to S3 completed successfully."),
        (.warning, purge_failed_msg)], ["build", "publish", "purge"]) ∧
    (∀ m ∈ (flashRun st0 cmdsPostFail "build_publish" "bucket").1, m.1 ≠ Level.error) ∧
    _run_bakery_stream st0 cmdsPostFail "build_publish" "bucket" =
      ([stepRec "build" "running" (.jstr "Build"),
        stepRec "build" "complete" (.jstr "Build"),
        stepRec "sync" "running" (.jstr "Sync to S3"),
        stepRec "sync" "complete" (.jstr "Sync to S3"),
        stepRec "post_publish" "running" (.jstr "Post-publish"),
        stepErrRec "post_publish" (.jstr "Post-publish") "boom",
        doneFailRec ("Post-publish failed: " ++ "boom")], ["build", "publish", "purge"]) ∧
    (∀ r ∈ (_run_bakery_stream st0 cmdsPostFail "build_publish" "bucket").1,
       isErrorStatus r = true → r.lookup "step" = some (.jstr "post_publish")) :=
  C1_post_publish_failure_isolated st0 cmdsPostFail "bucket" "boom" "purge" "Post-publish"
    rfl rfl rfl (by decide) rfl (by decide)

/-- Evaluation helper: the empty `Accept` header does not ask for an
event stream. -/
theorem strContains_empty_accept : strContains "" "text/event-stream" = false := by decide

/-- Evaluation helper: an `Accept` header equal to `text/event-stream`
asks for an event stream. -/
theorem strContains_event_accept : strContains "text/event-stream" "text/event-stream" = true := by
  decide

/-- C4: with neither bucket environment variable set the resolved bucket
name is empty; a `build_publish` request (with the build succeeding) then
never invokes the publish command and reports the configuration error —
an error flash plus redirect in the non-streaming path, an error record
in the streaming path. -/
theorem C4_missing_bucket_refuses_publish (env : Env) (st : Settings) (cmds : Cmds)
    (h1 : env.lookup "BAKERY_AWS_BUCKET_NAME" = none)
    (h2 : env.lookup "AWS_BUCKET_NAME" = none)
    (h3 : cmds.build = .ok ()) :
    get_bucket_name env = "" ∧
    bakery_admin_view env st cmds { method := "POST", action := some "build_publish", accept := "" } =
      { msgs := [(.success, "Build completed successfully."), (.error, bucket_not_configured_msg)]
        response := .redirect wagtailbakery_admin_url
        invoked := ["build"] } ∧
    bakery_admin_view env st cmds
        { method := "POST", action := some "build_publish", accept := "text/event-stream" } =
      { msgs := []
        response := .streaming
          ([stepRec "build" "running" (.jstr "Build"),
            stepRec "build" "complete" (.jstr "Build"), bucketErrRec].map _sse_event)
        invoked := ["build"] } ∧
    "publish" ∉ (bakery_admin_view env st cmds
        { method := "POST", action := some "build_publish", accept := "" }).invoked ∧
    "publish" ∉ (bakery_admin_view env st cmds
        { method := "POST", action := some "build_publish", accept := "text/event-stream" }).invoked := by
  have hbn : get_bucket_name env = "" := by
    simp [get_bucket_name, envGet, h1, h2]
  have hflash : bakery_admin_view env st cmds
      { method := "POST", action := some "build_publish", accept := "" } =
      { msgs := [(.success, "Build completed successfully."), (.error, bucket_not_configured_msg)]
        response := .redirect wagtailbakery_admin_url
        invoked := ["build"] } := by
    simp [bakery_admin_view, strContains_empty_accept, flashRun, hbn, h3]
  have hstream : bakery_admin_view env st cmds
      { method := "POST", action := some "build_publish", accept := "text/event-stream" } =
      { msgs := []
        response := .streaming
          ([stepRec "build" "running" (.jstr "Build"),
            stepRec "build" "complete" (.jstr "Build"), bucketErrRec].map _sse_event)
        invoked := ["build"] } := by
    simp [bakery_admin_view, strContains_event_accept, _run_bakery_stream, publishPhase, hbn, h3]
  refine ⟨hbn, hflash, hstream, ?_, ?_⟩
  · rw [hflash]; decide
  · rw [hstream]; decide

/-- Witness for C4 at the empty environment. -/
theorem C4_missing_bucket_refuses_publish_witness :
    get_bucket_name [] = "" ∧
    bakery_admin_view [] st0 cmdsOk { method := "POST", action := some "build_publish", accept := "" } =
      { msgs := [(.success, "Build completed successfully."), (.error, bucket_not_configured_msg)]
        response := .redirect wagtailbakery_admin_url
        invoked := ["build"] } ∧
    bakery_admin_view [] st0 cmdsOk
        { method := "POST", action := some "build_publish", accept := "text/event-stream" } =
      { msgs := []
        response := .streaming
          ([stepRec "build" "running" (.jstr "Build"),
            stepRec "build" "complete" (.jstr "Build"), bucketErrRec].map _sse_event)
        invoked := ["build"] } ∧
    "publish" ∉ (bakery_admin_view [] st0 cmdsOk
        { method := "POST", action := some "build_publish", accept := "" }).invoked ∧
    "publish" ∉ (bakery_admin_view [] st0 cmdsOk
        { method := "POST", action := some "build_publish", accept := "text/event-stream" }).invoked :=
  C4_missing_bucket_refuses_publish [] st0 cmdsOk rfl rfl rfl

/-- C7: for a POST with a valid action the view streams exactly when the
`Accept` header contains `text/event-stream` — then the body is the SSE
serialisation of the progress records of `_run_bakery_stream` — and
otherwise returns a redirect after the flash-message run; the two modes
are mutually exclusive. -/
theorem C7_stream_iff_event_accept (env : Env) (st : Settings) (cmds : Cmds) (a acc : String)
    (hv : a = "build" ∨ a = "build_publish") :
    (strContains acc "text/event-stream" = true →
       bakery_admin_view env st cmds { method := "POST", action := some a, accept := acc } =
         { msgs := []
           response := .streaming
             ((_run_bakery_stream st cmds a (get_bucket_name env)).1.map _sse_event)
           invoked := (_run_bakery_stream st cmds a (get_bucket_name env)).2 }) ∧
    (strContains acc "text/event-stream" = false →
       bakery_admin_view env st cmds { method := "POST", action := some a, accept := acc } =
         { msgs := (flashRun st cmds a (get_bucket_name env)).1
           response := .redirect wagtailbakery_admin_url
           invoked := (flashRun st cmds a (get_bucket_name env)).2 }) := by
  constructor <;> intro hacc <;> rcases hv with rfl | rfl <;>
    simp [bakery_admin_view, hacc]

/-- Witness for C7 at a concrete streaming request. -/
theorem C7_stream_iff_event_accept_witness :
    (strContains "text/event-stream" "text/event-stream" = true →
       bakery_admin_view envB st0 cmdsOk
           { method := "POST", action := some "build", accept := "text/event-stream" } =
         { msgs := []
           response := .streaming
             ((_run_bakery_stream st0 cmdsOk "build" (get_bucket_name envB)).1.map _sse_event)
           invoked := (_run_bakery_stream st0 cmdsOk "build" (get_bucket_name envB)).2 }) ∧
    (strContains "text/event-stream" "text/event-stream" = false →
       bakery_admin_view envB st0 cmdsOk
           { method := "POST", action := some "build", accept := "text/event-stream" } =
         { msgs := (flashRun st0 cmdsOk "build" (get_bucket_name envB)).1
           response := .redirect wagtailbakery_admin_url
           invoked := (flashRun st0 cmdsOk "build" (get_bucket_name envB)).2 }) :=
  C7_stream_iff_event_accept envB st0 cmdsOk "build" "text/event-stream" (Or.inl rfl)

/-- C10: `_get_post_publish_command` is total and degrades silently: a
value outside the three documented forms parses to `(None, None)`, a dict
lacking the command key parses to a `None` command with the dict's (or
default) title, the bare empty string parses to an empty — hence falsy —
command, and with a falsy parsed command the post-publish step is skipped
with no error or warning reported in either path. -/
theorem C10_parse_total_and_silent_skip (st : Settings) (cmds : Cmds) (b : String)
    (es : List (String × String))
    (hb : cmds.build = .ok ()) (hp : cmds.publish = .ok ()) (hbn : b ≠ "")
    (hskip : pyTruthy (_get_post_publish_command st.BAKERY_POST_PUBLISH_COMMAND).1 = false)
    (hes : es.lookup "command" = none) :
    _get_post_publish_command .pyOther = (none, none) ∧
    _get_post_publish_command (.pyDict es) =
      (none, some ((es.lookup "title").getD "Post-publish")) ∧
    _get_post_publish_command (.pyStr "") = (some "", some "Post-publish") ∧
    pyTruthy (some "") = false ∧
    flashRun st cmds "build_publish" b =
      ([(.success, "Build completed successfully."),
        (.success, "Build and publish to S3 completed successfully.")], ["build", "publish"]) ∧
    _run_bakery_stream st cmds "build_publish" b =
      ([stepRec "build" "running" (.jstr "Build"),
        stepRec "build" "complete" (.jstr "Build"),
        stepRec "sync" "running" (.jstr "Sync to S3"),
        stepRec "sync" "complete" (.jstr "Sync to S3"), doneRec], ["build", "publish"]) := by
  refine ⟨rfl, ?_, rfl, rfl, ?_, ?_⟩
  · simp [_get_post_publish_command, hes]
  · simp [flashRun, hb, hp, hbn, hskip]
  · simp [_run_bakery_stream, publishPhase, postPhase, hb, hp, hbn, hskip]

/-- Witness for C10 with the post-publish setting an unrelated object. -/
theorem C10_parse_total_and_silent_skip_witness :
    _get_post_publish_command .pyOther = (none, none) ∧
    _get_post_publish_command (.pyDict [("title", "Purge CDN")]) =
      (none, some (([("title", "Purge CDN")].lookup "title").getD "Post-publish")) ∧
    _get_post_publish_command (.pyStr "") = (some "", some "Post-publish") ∧
    pyTruthy (some "") = false ∧
    flashRun stOther cmdsOk "build_publish" "bucket" =
      ([(.success, "Build completed successfully."),
        (.success, "Build and publish to S3 completed successfully.")], ["build", "publish"]) ∧
    _run_bakery_stream stOther cmdsOk "build_publish" "bucket" =
      ([stepRec "build" "running" (.jstr "Build"),
        stepRec "build" "complete" (.jstr "Build"),
        stepRec "sync" "running" (.jstr "Sync to S3"),
        stepRec "sync" "complete" (.jstr "Sync to S3"), doneRec], ["build", "publish"]) :=
  C10_parse_total_and_silent_skip stOther cmdsOk "bucket" [("title", "Purge CDN")]
    rfl rfl (by decide) rfl rfl

/-- C2 counterexample: on the `build_publish` path with an empty bucket
name the stream ends with `{"step": "error", "message": ...}`, which has
neither the `{step, status, label}` progress shape nor the terminal
`{step: "done", success}` shape, and no terminal record follows it. -/
theorem C2_record_shape_cex :
    streamWellFormed (_run_bakery_stream st0 cmdsOk "build_publish" "").1 = false ∧
    ((_run_bakery_stream st0 cmdsOk "build_publish" "").1).getLast? = some bucketErrRec ∧
    isProgressRec bucketErrRec = false ∧
    isTerminalRec bucketErrRec = false := by
  decide

/-- C2 (amended): on every path of `_run_bakery_stream` except the
`build_publish` path with an empty bucket name (and a successful build),
every record but the last has the `{step, status, label}` shape with a
`message` only on error, and the stream ends with exactly one terminal
`{step: "done", success: bool}` record; on the excepted path the stream
instead ends with the record `{step: "error", message}` and no terminal
record. -/
theorem C2_record_shape_amended (st : Settings) (cmds : Cmds) (action bucket_name : String) :
    (¬ (action = "build_publish" ∧ bucket_name = "" ∧ cmds.build = .ok ()) →
       streamWellFormed (_run_bakery_stream st cmds action bucket_name).1 = true) ∧
    (action = "build_publish" → bucket_name = "" → cmds.build = .ok () →
       (_run_bakery_stream st cmds action bucket_name).1 =
         [stepRec "build" "running" (.jstr "Build"),
          stepRec "build" "complete" (.jstr "Build"), bucketErrRec]) := by
  constructor
  · intro h
    by_cases h2 : action = "build_publish"
    · subst h2
      cases hb : cmds.build with
      | error e =>
        have hs : (_run_bakery_stream st cmds "build_publish" bucket_name).1 =
            [stepRec "build" "running" (.jstr "Build"), doneFailRec e] := by
          simp [_run_bakery_stream, hb]
        rw [hs]; rfl
      | ok u =>
        cases u
        have hbn : bucket_name ≠ "" := fun hh => h ⟨rfl, hh, hb⟩
        rcases hpc : _get_post_publish_command st.BAKERY_POST_PUBLISH_COMMAND with ⟨c2, t2⟩
        cases hp : cmds.publish with
        | error e =>
          have hs : (_run_bakery_stream st cmds "build_publish" bucket_name).1 =
              [stepRec "build" "running" (.jstr "Build"),
               stepRec "build" "complete" (.jstr "Build"),
               stepRec "sync" "running" (.jstr "Sync to S3"), doneFailRec e] := by
            simp [_run_bakery_stream, publishPhase, hb, hp, hbn]
          rw [hs]; rfl
        | ok v =>
          cases v
          by_cases ht : pyTruthy c2 = true
          · cases hpost : cmds.post with
            | ok w =>
              cases w
              have hs : (_run_bakery_stream st cmds "build_publish" bucket_name).1 =
                  [stepRec "build" "running" (.jstr "Build"),
                   stepRec "build" "complete" (.jstr "Build"),
                   stepRec "sync" "running" (.jstr "Sync to S3"),
                   stepRec "sync" "complete" (.jstr "Sync to S3"),
                   stepRec "post_publish" "running" (jOfTitle t2),
                   stepRec "post_publish" "complete" (jOfTitle t2), doneRec] := by
                simp [_run_bakery_stream, publishPhase, postPhase, hb, hp, hbn, hpc, ht, hpost]
              rw [hs]; rfl
            | error e =>
              have hs : (_run_bakery_stream st cmds "build_publish" bucket_name).1 =
                  [stepRec "build" "running" (.jstr "Build"),
                   stepRec "build" "complete" (.jstr "Build"),
                   stepRec "sync" "running" (.jstr "Sync to S3"),
                   stepRec "sync" "complete" (.jstr "Sync to S3"),
                   stepRec "post_publish" "running" (jOfTitle t2),
                   stepErrRec "post_publish" (jOfTitle t2) e,
                   doneFailRec ("Post-publish failed: " ++ e)] := by
                simp [_run_bakery_stream, publishPhase, postPhase, hb, hp, hbn, hpc, ht, hpost]
              rw [hs]; rfl
          · have ht' : pyTruthy c2 = false := by
              simpa using ht
            have hs : (_run_bakery_stream st cmds "build_publish" bucket_name).1 =
                [stepRec "build" "running" (.jstr "Build"),
                 stepRec "build" "complete" (.jstr "Build"),
                 stepRec "sync" "running" (.jstr "Sync to S3"),
                 stepRec "sync" "complete" (.jstr "Sync to S3"), doneRec] := by
              simp [_run_bakery_stream, publishPhase, postPhase, hb, hp, hbn, hpc, ht']
            rw [hs]; rfl
    · by_cases h1 : action = "build"
      · subst h1
        cases hb : cmds.build with
        | error e =>
          have hs : (_run_bakery_stream st cmds "build" bucket_name).1 =
              [stepRec "build" "running" (.jstr "Build"), doneFailRec e] := by
            simp [_run_bakery_stream, hb]
          rw [hs]; rfl
        | ok u =>
          cases u
          have hs : (_run_bakery_stream st cmds "build" bucket_name).1 =
              [stepRec "build" "running" (.jstr "Build"),
               stepRec "build" "complete" (.jstr "Build"), doneRec] := by
            simp [_run_bakery_stream, hb, h2]
          rw [hs]; rfl
      · have hs : (_run_bakery_stream st cmds action bucket_name).1 = [doneRec] := by
          simp [_run_bakery_stream, h1, h2]
        rw [hs]; rfl
  · intro h1 h2 h3
    subst h1; subst h2
    simp [_run_bakery_stream, publishPhase, h3]

/-- Witness for C2's amended theorem on a post-publish failure stream. -/
theorem C2_record_shape_amended_witness :
    streamWellFormed (_run_bakery_stream st0 cmdsPostFail "build_publish" "bucket").1 = true :=
  (C2_record_shape_amended st0 cmdsPostFail "build_publish" "bucket").1
    (fun hh => absurd hh.2.1 (by decide))

/-- C8 counterexample: in the redirect path, a failing post-publish
command is invoked and caught, but no error-level flash message is
emitted — the surfaced message is a warning, so the claim's "error flash
message" does not hold for the post-publish subcommand. -/
theorem C8_error_surface_cex :
    cmdsPostFail.post = .error "boom" ∧
    "purge" ∈ (bakery_admin_view envB st0 cmdsPostFail
        { method := "POST", action := some "build_publish", accept := "" }).invoked ∧
    ¬ ∃ m ∈ (bakery_admin_view envB st0 cmdsPostFail
        { method := "POST", action := some "build_publish", accept := "" }).msgs,
        m.1 = Level.error :=
  ⟨rfl, by decide, by decide⟩

/-- C8 (amended): every subcommand exception is caught and the handler
still produces a normal response (a redirect in the flash path); a build
or publish failure surfaces as an error flash message, while a
post-publish failure surfaces as a warning flash message; in the
streaming path every such failure ends the stream with a terminal record
carrying success `false`. -/
theorem C8_subcommand_failures_surfaced (env : Env) (st : Settings) (cmds : Cmds)
    (a e c t : String) (hv : a = "build" ∨ a = "build_publish") :
    (bakery_admin_view env st cmds { method := "POST", action := some a, accept := "" }).response =
      .redirect wagtailbakery_admin_url ∧
    (cmds.build = .error e →
       (Level.error, "Build failed: " ++ e) ∈ (flashRun st cmds a (get_bucket_name env)).1 ∧
       ((_run_bakery_stream st cmds a (get_bucket_name env)).1).getLast? =
         some (doneFailRec e)) ∧
    (a = "build_publish" → cmds.build = .ok () → get_bucket_name env ≠ "" →
     cmds.publish = .error e →
       (Level.error, "Build failed: " ++ e) ∈ (flashRun st cmds a (get_bucket_name env)).1 ∧
       ((_run_bakery_stream st cmds a (get_bucket_name env)).1).getLast? =
         some (doneFailRec e)) ∧
    (a = "build_publish" → cmds.build = .ok () → get_bucket_name env ≠ "" →
     cmds.publish = .ok () →
     _get_post_publish_command st.BAKERY_POST_PUBLISH_COMMAND = (some c, some t) → c ≠ "" →
     cmds.post = .error e →
       (Level.warning, purge_failed_msg) ∈ (flashRun st cmds a (get_bucket_name env)).1 ∧
       ((_run_bakery_stream st cmds a (get_bucket_name env)).1).getLast? =
         some (doneFailRec ("Post-publish failed: " ++ e))) := by
  refine ⟨?_, ?_, ?_, ?_⟩
  · rcases hv with rfl | rfl <;> simp [bakery_admin_view, strContains_empty_accept]
  · intro hb
    rcases hv with rfl | rfl
    · have hf : (Level.error, "Build failed: " ++ e) ∈
          (flashRun st cmds "build" (get_bucket_name env)).1 := by
        simp [flashRun, hb]
      have hs : (_run_bakery_stream st cmds "build" (get_bucket_name env)).1 =
          [stepRec "build" "running" (.jstr "Build"), doneFailRec e] := by
        simp [_run_bakery_stream, hb]
      refine ⟨hf, ?_⟩
      rw [hs]; rfl
    · have hf : (Level.error, "Build failed: " ++ e) ∈
          (flashRun st cmds "build_publish" (get_bucket_name env)).1 := by
        simp [flashRun, hb]
      have hs : (_run_bakery_stream st cmds "build_publish" (get_bucket_name env)).1 =
          [stepRec "build" "running" (.jstr "Build"), doneFailRec e] := by
        simp [_run_bakery_stream, hb]
      refine ⟨hf, ?_⟩
      rw [hs]; rfl
  · intro ha hb hbn hp
    subst ha
    have hf : (Level.error, "Build failed: " ++ e) ∈
        (flashRun st cmds "build_publish" (get_bucket_name env)).1 := by
      simp [flashRun, hb, hp, hbn]
    have hs : (_run_bakery_stream st cmds "build_publish" (get_bucket_name env)).1 =
        [stepRec "build" "running" (.jstr "Build"),
         stepRec "build" "complete" (.jstr "Build"),
         stepRec "sync" "running" (.jstr "Sync to S3"), doneFailRec e] := by
      simp [_run_bakery_stream, publishPhase, hb, hp, hbn]
    refine ⟨hf, ?_⟩
    rw [hs]; rfl
  · intro ha hb hbn hp hpc hc hpost
    subst ha
    have hf : (Level.warning, purge_failed_msg) ∈
        (flashRun st cmds "build_publish" (get_bucket_name env)).1 := by
      simp [flashRun, hb, hp, hbn, hpc, pyTruthy, hc, hpost]
    have hs : (_run_bakery_stream st cmds "build_publish" (get_bucket_name env)).1 =
        [stepRec "build" "running" (.jstr "Build"),
         stepRec "build" "complete" (.jstr "Build"),
         stepRec "sync" "running" (.jstr "Sync to S3"),
         stepRec "sync" "complete" (.jstr "Sync to S3"),
         stepRec "post_publish" "running" (.jstr t),
         stepErrRec "post_publish" (.jstr t) e,
         doneFailRec ("Post-publish failed: " ++ e)] := by
      simp [_run_bakery_stream, publishPhase, postPhase, hb, hp, hbn, hpc, pyTruthy, hc,
        hpost, jOfTitle]
    refine ⟨hf, ?_⟩
    rw [hs]; rfl

/-- Witness for C8's amended theorem: a failing build surfaces as an
error flash and a terminal failure record, and the response is still a
redirect. -/
theorem C8_subcommand_failures_surfaced_witness :
    (bakery_admin_view envB st0 cmdsBuildFail
        { method := "POST", action := some "build", accept := "" }).response =
      .redirect wagtailbakery_admin_url ∧
    (Level.error, "Build failed: " ++ "no pages") ∈
      (flashRun st0 cmdsBuildFail "build" (get_bucket_name envB)).1 ∧
    ((_run_bakery_stream st0 cmdsBuildFail "build" (get_bucket_name envB)).1).getLast? =
      some (doneFailRec "no pages") :=
  ⟨(C8_subcommand_failures_surfaced envB st0 cmdsBuildFail "build" "no pages" "c" "t"
      (Or.inl rfl)).1,
   ((C8_subcommand_failures_surfaced envB st0 cmdsBuildFail "build" "no pages" "c" "t"
      (Or.inl rfl)).2.1 rfl).1,
   ((C8_subcommand_failures_surfaced envB st0 cmdsBuildFail "build" "no pages" "c" "t"
      (Or.inl rfl)).2.1 rfl).2⟩

end WagtailBakery
